import Mathlib

/-!
Verification development for the realtime session-protocol clients of the
career-mvp repository.  The definitions below are a shallow embedding of
`RealtimeBrowserClient` (src/unnamed/part_003), `SimpleRealtimeClient`
(src/app/lib/openai/simple-realtime-client.ts) and the base64 audio
round-trip pair `RealtimeBrowserClient.arrayBufferToBase64` / `atob`-based
decoding in `AudioPlayer.playBase64Audio` (src/app/lib/utils/audio.ts).

Bytes are `Nat` with an explicit `< 256` bound where it matters; JS
`undefined`/absent fields are `Option.none`; the JS falsy check `!x` on a
string-typed field is `none` or the empty string.  Emissions of the
`EventEmitter` are recorded as a list of (channel, payload) pairs produced
by each handler, in the order the source emits them.
-/

namespace CareerMVP

/-- Inbound wire frame, restricted to the fields the client actually reads:
`data.type`, `data.session?.id` (for `session.created`) and
`data.error?.code` (for `error`).  `none` models an absent field. -/
structure Frame where
  type : Option String
  sessionId : Option String
  errorCode : Option String
deriving DecidableEq

/-- The payload shapes the client passes to `emit`:  the whole frame, the
`session` object, some other sub-field of the frame, the raw `error`
object, the synthesized auth-error object of `handleError`, the
synthesized auth object of the close handler, the close info of the
`disconnected` event, or an empty object. -/
inductive Payload where
  | frame (f : Frame)
  | sessionObj (id : Option String)
  | fieldOf (name : String)
  | errObj (code : Option String)
  | authErrorPayload (code : Option String)
  | authCloseInfo (code : Nat) (reason : String)
  | closeInfo (code : Nat) (reason : String)
  | emptyObj
deriving DecidableEq

/-- The `type` field of an emitted payload object, where it has one. The
synthesized payloads of `handleError` and of the auth branch of `onclose`
both carry `type: 'authentication_error'`. -/
def payloadTypeField : Payload → Option String
  | .frame f => f.type
  | .authErrorPayload _ => some "authentication_error"
  | .authCloseInfo _ _ => some "authentication_error"
  | _ => none

/-- One `emit` call: channel name (the first argument of `emit`, which in
`SimpleRealtimeClient.connect` is the possibly-absent `data.type`) and
payload. -/
structure Emission where
  channel : Option String
  payload : Payload
deriving DecidableEq

/-- Mutable instance fields of `RealtimeBrowserClient`.  `ws none` is a
null socket field, `ws (some b)` a socket whose readyState is OPEN iff
`b`.  `reconnectTimer` holds the delay of the pending timer, if any. -/
structure ClientState where
  ws : Option Bool
  isConnected : Bool
  sessionId : Option String
  reconnectTimer : Option Nat
  reconnectAttempts : Nat
deriving DecidableEq

/-- Field initializers of `RealtimeBrowserClient`. -/
def initialState : ClientState :=
  { ws := none, isConnected := false, sessionId := none,
    reconnectTimer := none, reconnectAttempts := 0 }

/-- `maxReconnectAttempts` field initializer. -/
def maxReconnectAttempts : Nat := 5

/-- `reconnectDelay` field initializer (base delay, ms). -/
def reconnectDelay : Nat := 1000

/-- `RealtimeBrowserClient.scheduleReconnect`: increments the attempt
counter, computes `min(reconnectDelay * 2^(attempts-1), 30000)` and arms
the timer with that delay; returns the new state and the delay. -/
def scheduleReconnect (s : ClientState) : ClientState × Nat :=
  let attempts := s.reconnectAttempts + 1
  let delay := min (reconnectDelay * 2 ^ (attempts - 1)) 30000
  ({ s with reconnectAttempts := attempts, reconnectTimer := some delay }, delay)

/-- Substring occurrence on character lists: the needle occurs as a
contiguous run somewhere in the haystack. -/
def occursIn (needle : List Char) : List Char → Bool
  | [] => needle.isEmpty
  | c :: cs => needle.isPrefixOf (c :: cs) || occursIn needle cs

/-- The JS `reason?.includes('auth')` test of the close handler. -/
def includesAuth (reason : String) : Bool :=
  occursIn "auth".toList reason.toList

/-- The `ws.onclose` handler of `RealtimeBrowserClient.connect`: clears
the connected flag, emits `disconnected`, then either surfaces an
authentication error (close code 1008 or a reason containing "auth") and
stops, or — for a non-normal close code with attempts remaining —
schedules a reconnect.  Returns the new state, the emissions, and the
scheduled delay if a reconnect was armed. -/
def handleClose (s : ClientState) (code : Nat) (reason : String) :
    ClientState × List Emission × Option Nat :=
  let s1 := { s with isConnected := false }
  let ems := [Emission.mk (some "disconnected") (Payload.closeInfo code reason)]
  if code = 1008 ∨ includesAuth reason = true then
    (s1, ems ++ [Emission.mk (some "error") (Payload.authCloseInfo code reason)], none)
  else if code ≠ 1000 ∧ s1.reconnectAttempts < maxReconnectAttempts then
    let r := scheduleReconnect s1
    (r.1, ems, some r.2)
  else
    (s1, ems, none)

/-- The `ws.onopen` handler of `RealtimeBrowserClient.connect`: marks the
socket open and connected, resets the attempt counter to zero, sends the
auth message, and emits `connected`. -/
def handleOpen (s : ClientState) : ClientState × List Emission :=
  ({ s with ws := some true, isConnected := true, reconnectAttempts := 0 },
   [Emission.mk (some "connected") Payload.emptyObj])

/-- `RealtimeBrowserClient.disconnect`: clears any pending reconnect
timer, closes and nulls the socket, clears the connected flag and the
stored session id.  (The `ws.close(1000, 'Client disconnect')` call is
reflected by feeding code 1000 / that reason to `handleClose`.) -/
def disconnect (s : ClientState) : ClientState :=
  { s with reconnectTimer := none, ws := none,
           isConnected := false, sessionId := none }

/-- `RealtimeBrowserClient.getConnectionStatus`. -/
def getConnectionStatus (s : ClientState) : Bool := s.isConnected

/-- `RealtimeBrowserClient.getSessionId`. -/
def getSessionId (s : ClientState) : Option String := s.sessionId

/-- Outcome of `RealtimeBrowserClient.send`: whether a frame was written
to the socket, and whether the "Cannot send" error was logged. -/
structure SendResult where
  wrote : Bool
  errorLogged : Bool
deriving DecidableEq

/-- `RealtimeBrowserClient.send`: if the socket field is null or its
readyState is not OPEN, logs "Cannot send: WebSocket not connected" and
returns without writing; otherwise writes one serialized frame. -/
def send (s : ClientState) : SendResult :=
  if s.ws = some true then
    { wrote := true, errorLogged := false }
  else
    { wrote := false, errorLogged := true }

/-- `RealtimeBrowserClient.handleError`: reads `data.error.code`; on
`invalid_api_key` or `authentication_error` emits the synthesized
authentication-error payload on the `error` channel and calls
`disconnect()`; otherwise forwards the raw error object on the `error`
channel and leaves the state untouched. -/
def handleError (s : ClientState) (f : Frame) : ClientState × List Emission :=
  if f.errorCode = some "invalid_api_key" ∨ f.errorCode = some "authentication_error" then
    (disconnect s, [Emission.mk (some "error") (Payload.authErrorPayload f.errorCode)])
  else
    (s, [Emission.mk (some "error") (Payload.errObj f.errorCode)])

/-- `RealtimeBrowserClient.handleMessage`: drops frames whose `type` is
missing or falsy, dispatches the known event types of the switch
statement, and re-emits any other frame as-is under its raw type name
(the default case). -/
def handleMessage (s : ClientState) (f : Frame) : ClientState × List Emission :=
  match f.type with
  | none => (s, [])
  | some t =>
    if t = "" then (s, [])
    else if t = "error" then handleError s f
    else if t = "session.created" then
      ({ s with sessionId := f.sessionId },
       [Emission.mk (some "session.created") (Payload.sessionObj f.sessionId)])
    else if t = "session.updated" then
      (s, [Emission.mk (some "session.updated") (Payload.fieldOf "session")])
    else if t = "conversation.item.created" then
      (s, [Emission.mk (some "conversation.item.created") (Payload.fieldOf "item")])
    else if t = "conversation.item.input_audio_transcription.completed" then
      (s, [Emission.mk (some "transcription.completed") (Payload.frame f)])
    else if t = "conversation.item.input_audio_transcription.failed" then
      (s, [Emission.mk (some "transcription.failed") (Payload.frame f)])
    else if t = "response.created" then
      (s, [Emission.mk (some "response.created") (Payload.fieldOf "response")])
    else if t = "response.done" then
      (s, [Emission.mk (some "response.done") (Payload.fieldOf "response")])
    else if t = "response.text.delta" then
      (s, [Emission.mk (some "response.text.delta") (Payload.fieldOf "delta")])
    else if t = "response.text.done" then
      (s, [Emission.mk (some "response.text.done") (Payload.fieldOf "text")])
    else if t = "response.audio_transcript.delta" then
      (s, [Emission.mk (some "response.audio_transcript.delta") (Payload.fieldOf "delta")])
    else if t = "response.audio_transcript.done" then
      (s, [Emission.mk (some "response.audio_transcript.done") (Payload.fieldOf "transcript")])
    else if t = "response.audio.delta" then
      (s, [Emission.mk (some "response.audio.delta") (Payload.fieldOf "delta")])
    else if t = "response.audio.done" then
      (s, [Emission.mk (some "response.audio.done") (Payload.frame f)])
    else if t = "input_audio_buffer.speech_started" then
      (s, [Emission.mk (some "speech.started") (Payload.frame f)])
    else if t = "input_audio_buffer.speech_stopped" then
      (s, [Emission.mk (some "speech.stopped") (Payload.frame f)])
    else if t = "input_audio_buffer.committed" then
      (s, [Emission.mk (some "input_audio_buffer.committed") (Payload.frame f)])
    else if t = "input_audio_buffer.cleared" then
      (s, [Emission.mk (some "input_audio_buffer.cleared") (Payload.frame f)])
    else if t = "rate_limits.updated" then
      (s, [Emission.mk (some "rate_limits.updated") (Payload.fieldOf "rate_limits")])
    else
      (s, [Emission.mk (some t) (Payload.frame f)])

/-- The `case` labels of the switch in `handleMessage` (everything not in
this list and not falsy reaches the default case). -/
def knownTypes : List String :=
  ["error", "session.created", "session.updated", "conversation.item.created",
   "conversation.item.input_audio_transcription.completed",
   "conversation.item.input_audio_transcription.failed",
   "response.created", "response.done", "response.text.delta",
   "response.text.done", "response.audio_transcript.delta",
   "response.audio_transcript.done", "response.audio.delta",
   "response.audio.done", "input_audio_buffer.speech_started",
   "input_audio_buffer.speech_stopped", "input_audio_buffer.committed",
   "input_audio_buffer.cleared", "rate_limits.updated"]

/-- The `ws.onmessage` handler of `SimpleRealtimeClient.connect` after a
successful JSON parse: emits the frame under `data.type` and then under
the wildcard channel. -/
def simpleOnMessage (f : Frame) : List Emission :=
  [Emission.mk f.type (Payload.frame f), Emission.mk (some "*") (Payload.frame f)]

/-! Base64.  `arrayBufferToBase64` builds a binary string whose char codes
are the bytes of the buffer and applies `btoa`; `playBase64Audio` applies
`atob` and reads the char codes back.  Both are modelled end to end on
byte lists (`Nat < 256`). -/

/-- The standard base64 alphabet used by `btoa`/`atob`. -/
def b64Alphabet : List Char :=
  "ABCDEFGHIJKLMNOPQRSTUVWXYZabcdefghijklmnopqrstuvwxyz0123456789+/".toList

/-- Character for a six-bit group. -/
def b64Char (n : Nat) : Char := b64Alphabet.getD n 'A'

/-- Position of a character in the base64 alphabet, scanning from `i`. -/
def b64IndexAux : List Char → Char → Nat → Option Nat
  | [], _, _ => none
  | a :: as, c, i => if a = c then some i else b64IndexAux as c (i + 1)

/-- Six-bit value of a base64 character, `none` for a non-alphabet
character (in particular for the pad character). -/
def b64Index (c : Char) : Option Nat := b64IndexAux b64Alphabet c 0

/-- `btoa` on a binary string given as byte list: three bytes become four
alphabet characters; a trailing byte becomes two characters plus two pad
characters; two trailing bytes become three characters plus one pad. -/
def btoaChunks : List Nat → List Char
  | [] => []
  | [a] => [b64Char (a / 4), b64Char (a % 4 * 16), '=', '=']
  | [a, b] => [b64Char (a / 4), b64Char (a % 4 * 16 + b / 16), b64Char (b % 16 * 4), '=']
  | a :: b :: c :: rest =>
      b64Char (a / 4) :: b64Char (a % 4 * 16 + b / 16) ::
      b64Char (b % 16 * 4 + c / 64) :: b64Char (c % 64) :: btoaChunks rest

/-- `atob` composed with the per-character `charCodeAt` loop of
`playBase64Audio`: consumes four characters at a time, handling the two
padded final-quantum shapes, and fails (`none`) on anything that is not a
well-formed base64 string. -/
def atobChunks : List Char → Option (List Nat)
  | [] => some []
  | c1 :: c2 :: c3 :: c4 :: rest =>
      if c3 = '=' ∧ c4 = '=' ∧ rest = [] then
        match b64Index c1, b64Index c2 with
        | some s1, some s2 => some [s1 * 4 + s2 / 16]
        | _, _ => none
      else if c4 = '=' ∧ rest = [] then
        match b64Index c1, b64Index c2, b64Index c3 with
        | some s1, some s2, some s3 =>
            some [s1 * 4 + s2 / 16, s2 % 16 * 16 + s3 / 4]
        | _, _, _ => none
      else
        match b64Index c1, b64Index c2, b64Index c3, b64Index c4, atobChunks rest with
        | some s1, some s2, some s3, some s4, some tail =>
            some ((s1 * 4 + s2 / 16) :: (s2 % 16 * 16 + s3 / 4) ::
                  (s3 % 4 * 64 + s4) :: tail)
        | _, _, _, _, _ => none
  | _ => none

/-- `RealtimeBrowserClient.arrayBufferToBase64`: bytes to binary string
(`String.fromCharCode` per byte) then `btoa`. -/
def arrayBufferToBase64 (buffer : List Nat) : String :=
  String.mk (btoaChunks buffer)

/-- The decode half of `AudioPlayer.playBase64Audio`: `atob`, then one
byte per character of the binary string via `charCodeAt`. -/
def playBase64AudioBytes (base64Audio : String) : Option (List Nat) :=
  atobChunks base64Audio.data

/-- `RealtimeBrowserClient.appendInputAudio`: encodes the buffer with
`arrayBufferToBase64` and passes the append command to `send`. -/
def appendInputAudio (s : ClientState) (buffer : List Nat) : String × SendResult :=
  (arrayBufferToBase64 buffer, send s)

/-! Event registry of `SimpleRealtimeClient` (`on` / `off` / `emit`).
`eventHandlers` is modelled as a total map from event name to handler
list (a missing map entry and an empty list are observationally equal
here); handlers are identified by `Nat` tokens standing for function
identity. -/

/-- The `eventHandlers` map. -/
def HandlerMap : Type := String → List Nat

/-- `SimpleRealtimeClient.on`: appends the handler to the list for the
event (creating the entry if needed). -/
def onReg (m : HandlerMap) (e : String) (h : Nat) : HandlerMap :=
  fun x => if x = e then m x ++ [h] else m x

/-- `SimpleRealtimeClient.off`: removes the first occurrence of the
handler from the event's list (via `indexOf` / `splice(index, 1)`); a
missing handler or event leaves the map unchanged. -/
def offReg (m : HandlerMap) (e : String) (h : Nat) : HandlerMap :=
  fun x => if x = e then (m x).erase h else m x

/-- `SimpleRealtimeClient.emit`: invokes the registered handlers for the
event in list order; the result is the ordered invocation sequence. -/
def emitCalls (m : HandlerMap) (e : String) : List Nat := m e

/-- One abnormal close (code 1006, empty reason): resulting state and
scheduled delay. -/
def closeStep (s : ClientState) : ClientState × Option Nat :=
  ((handleClose s 1006 "").1, (handleClose s 1006 "").2.2)

/-- The delays scheduled by three consecutive abnormal closes starting
from a fresh client. -/
def threeCloseDelays : List (Option Nat) :=
  [(closeStep initialState).2,
   (closeStep (closeStep initialState).1).2,
   (closeStep (closeStep (closeStep initialState).1).1).2]

/-- A concrete frame whose `type` matches no case of the switch in
`handleMessage`. -/
def unknownFrame : Frame :=
  { type := some "response.output_item.added", sessionId := none, errorCode := none }

/-- A concrete `eventHandlers` map: handler 1 registered twice and
handler 2 once under event "a". -/
def exampleMap : HandlerMap := fun x => if x = "a" then [1, 2, 1] else []

/-! Theorems. -/

/-- Decoding a character produced by `b64Char` recovers the six-bit
value. -/
theorem b64Index_b64Char : ∀ n < 64, b64Index (b64Char n) = some n := by
  decide

/-- Alphabet characters are never the pad character. -/
theorem b64Char_ne_pad : ∀ n < 64, b64Char n ≠ '=' := by
  decide

/-- Chunk-level round trip: decoding an encoded byte list (all bytes
below 256) recovers the list. -/
theorem atobChunks_btoaChunks (l : List Nat) (hl : ∀ b ∈ l, b < 256) :
    atobChunks (btoaChunks l) = some l := by
  induction l using btoaChunks.induct with
  | case1 =>
    rfl
  | case2 a =>
    have ha : a < 256 := hl a (by simp)
    simp only [btoaChunks, atobChunks]
    rw [if_pos ⟨trivial, trivial, trivial⟩]
    rw [b64Index_b64Char (a / 4) (by omega), b64Index_b64Char (a % 4 * 16) (by omega)]
    simp only [Option.some.injEq, List.cons.injEq, and_true]
    omega
  | case3 a b =>
    have ha : a < 256 := hl a (by simp)
    have hb : b < 256 := hl b (by simp)
    simp only [btoaChunks, atobChunks]
    rw [if_neg (fun hp => absurd hp.1 (b64Char_ne_pad (b % 16 * 4) (by omega)))]
    rw [if_pos ⟨trivial, trivial⟩]
    rw [b64Index_b64Char (a / 4) (by omega),
      b64Index_b64Char (a % 4 * 16 + b / 16) (by omega),
      b64Index_b64Char (b % 16 * 4) (by omega)]
    simp only [Option.some.injEq, List.cons.injEq, and_true]
    constructor <;> omega
  | case4 a b c rest ih =>
    have ha : a < 256 := hl a (by simp)
    have hb : b < 256 := hl b (by simp)
    have hc : c < 256 := hl c (by simp)
    have hrest : ∀ x ∈ rest, x < 256 := fun x hx => hl x (by simp [hx])
    simp only [btoaChunks, atobChunks]
    rw [if_neg (fun hp => absurd hp.1 (b64Char_ne_pad (b % 16 * 4 + c / 64) (by omega)))]
    rw [if_neg (fun hp => absurd hp.1 (b64Char_ne_pad (c % 64) (by omega)))]
    rw [b64Index_b64Char (a / 4) (by omega),
      b64Index_b64Char (a % 4 * 16 + b / 16) (by omega),
      b64Index_b64Char (b % 16 * 4 + c / 64) (by omega),
      b64Index_b64Char (c % 64) (by omega),
      ih hrest]
    simp only [Option.some.injEq, List.cons.injEq, and_true]
    refine ⟨by omega, by omega, by omega⟩

/-- C7: encoding any byte buffer with
`RealtimeBrowserClient.arrayBufferToBase64` and decoding with the
`atob`-based path of `AudioPlayer.playBase64Audio` reproduces the buffer
exactly — for every list of bytes, including length 0, length 1 and
lengths that are not a multiple of 3. -/
theorem base64_roundtrip (l : List Nat) (hl : ∀ b ∈ l, b < 256) :
    playBase64AudioBytes (arrayBufferToBase64 l) = some l := by
  simpa [playBase64AudioBytes, arrayBufferToBase64] using atobChunks_btoaChunks l hl

/-- C7 witness: round trip at buffers of length 0, length 1 and length 4
(not a multiple of 3). -/
theorem base64_roundtrip_witness :
    playBase64AudioBytes (arrayBufferToBase64 []) = some []
    ∧ playBase64AudioBytes (arrayBufferToBase64 [7]) = some [7]
    ∧ playBase64AudioBytes (arrayBufferToBase64 [10, 20, 255, 0]) =
        some [10, 20, 255, 0] :=
  ⟨base64_roundtrip [] (by decide),
   base64_roundtrip [7] (by decide),
   base64_roundtrip [10, 20, 255, 0] (by decide)⟩

/-- C1: on an abnormal, non-authentication close, the client schedules a
reconnect with delay `min(reconnectDelay * 2^(attempt-1), 30000)` for the
incremented attempt counter, and schedules nothing once the maximum
attempt count is reached; every scheduled delay is capped at 30000 ms;
with the 1000 ms base delay the first three scheduled delays are 1000,
2000 and 4000 ms; and a successful open resets the attempt counter to
zero. -/
theorem backoff_policy (s : ClientState) (code : Nat) (reason : String)
    (habn : code ≠ 1000)
    (hnoauth : ¬ (code = 1008 ∨ includesAuth reason = true)) :
    (s.reconnectAttempts < maxReconnectAttempts →
      (handleClose s code reason).2.2 =
        some (min (reconnectDelay * 2 ^ s.reconnectAttempts) 30000) ∧
      (handleClose s code reason).1.reconnectAttempts = s.reconnectAttempts + 1)
    ∧ (maxReconnectAttempts ≤ s.reconnectAttempts →
        (handleClose s code reason).2.2 = none)
    ∧ (∀ d, (handleClose s code reason).2.2 = some d → d ≤ 30000)
    ∧ threeCloseDelays = [some 1000, some 2000, some 4000]
    ∧ (∀ s0 : ClientState, (handleOpen s0).1.reconnectAttempts = 0) := by
  refine ⟨?_, ?_, ?_, by decide, fun s0 => rfl⟩
  · intro hlt
    simp only [handleClose, scheduleReconnect, if_neg hnoauth]
    rw [if_pos ⟨habn, hlt⟩]
    exact ⟨rfl, rfl⟩
  · intro hge
    simp only [handleClose, if_neg hnoauth]
    rw [if_neg]
    intro hc
    exact absurd hc.2 (Nat.not_lt.mpr hge)
  · intro d hd
    simp only [handleClose, scheduleReconnect, if_neg hnoauth] at hd
    by_cases hc : code ≠ 1000 ∧ s.reconnectAttempts < maxReconnectAttempts
    · rw [if_pos hc] at hd
      simp only [Option.some.injEq] at hd
      omega
    · rw [if_neg hc] at hd
      exact absurd hd (by simp)

/-- C1 witness: instantiation at a fresh client, close code 1006, empty
reason. -/
theorem backoff_policy_witness :
    (handleClose initialState 1006 "").2.2 =
      some (min (reconnectDelay * 2 ^ initialState.reconnectAttempts) 30000)
    ∧ (handleClose initialState 1006 "").1.reconnectAttempts =
        initialState.reconnectAttempts + 1
    ∧ threeCloseDelays = [some 1000, some 2000, some 4000] := by
  have h := backoff_policy initialState 1006 "" (by decide) (by decide)
  exact ⟨(h.1 (by decide)).1, (h.1 (by decide)).2, h.2.2.2.1⟩

/-- C2: an inbound `error` frame with code `invalid_api_key` makes the
client emit (on the `error` channel) the synthesized payload whose `type`
field is `authentication_error`, tear the connection down via
`disconnect()` — leaving it disconnected with no pending reconnect timer
— and schedule no reconnection: the normal-code close (1000, "Client
disconnect") produced by the teardown schedules nothing either. -/
theorem auth_error_terminal (s : ClientState) (f : Frame)
    (hty : f.type = some "error")
    (hcode : f.errorCode = some "invalid_api_key") :
    handleMessage s f =
      (disconnect s,
       [Emission.mk (some "error") (Payload.authErrorPayload (some "invalid_api_key"))])
    ∧ (handleMessage s f).1.isConnected = false
    ∧ (handleMessage s f).1.reconnectTimer = none
    ∧ payloadTypeField (Payload.authErrorPayload (some "invalid_api_key")) =
        some "authentication_error"
    ∧ (handleClose (handleMessage s f).1 1000 "Client disconnect").2.2 = none := by
  have hmain : handleMessage s f =
      (disconnect s,
       [Emission.mk (some "error") (Payload.authErrorPayload (some "invalid_api_key"))]) := by
    simp only [handleMessage, hty]
    norm_num
    simp [handleError, hcode]
  refine ⟨hmain, ?_, ?_, rfl, ?_⟩
  · rw [hmain]; rfl
  · rw [hmain]; rfl
  · rw [hmain]
    simp only [handleClose]
    rw [if_neg (by decide), if_neg (fun hc => hc.1 rfl)]

/-- C2 witness: instantiation at a fresh client and a concrete
`invalid_api_key` error frame. -/
theorem auth_error_terminal_witness :
    handleMessage initialState
        { type := some "error", sessionId := none, errorCode := some "invalid_api_key" } =
      (disconnect initialState,
       [Emission.mk (some "error") (Payload.authErrorPayload (some "invalid_api_key"))]) := by
  exact (auth_error_terminal initialState
    { type := some "error", sessionId := none, errorCode := some "invalid_api_key" }
    rfl rfl).1

/-- C3 counterexample: `RealtimeBrowserClient.handleMessage` on a parsed
frame with the unknown type `response.output_item.added` emits exactly
one event — under the raw type name — and emits nothing under the
wildcard channel `*`: the claim that every unknown frame is also emitted
under the wildcard channel fails for this client. -/
theorem unknown_event_no_wildcard :
    (handleMessage initialState unknownFrame).2 =
      [Emission.mk (some "response.output_item.added") (Payload.frame unknownFrame)]
    ∧ ∀ e ∈ (handleMessage initialState unknownFrame).2, e.channel ≠ some "*" := by
  decide

/-- C3 (amended): a parsed frame with a truthy `type` matching no case of
the switch is never swallowed — `RealtimeBrowserClient.handleMessage`
re-emits it (only) under its raw type name with the state unchanged,
while `SimpleRealtimeClient` emits every parsed frame both under its raw
type and under the wildcard channel `*`. -/
theorem unknown_event_forwarding (s : ClientState) (f : Frame) (t : String)
    (hty : f.type = some t) (hne : t ≠ "") (hunk : t ∉ knownTypes) :
    handleMessage s f = (s, [Emission.mk (some t) (Payload.frame f)])
    ∧ simpleOnMessage f =
        [Emission.mk (some t) (Payload.frame f),
         Emission.mk (some "*") (Payload.frame f)] := by
  simp only [knownTypes, List.mem_cons, List.not_mem_nil, or_false, not_or] at hunk
  obtain ⟨h1, h2, h3, h4, h5, h6, h7, h8, h9, h10, h11, h12, h13, h14, h15, h16,
    h17, h18, h19⟩ := hunk
  constructor
  · simp only [handleMessage, hty, if_neg hne, if_neg h1, if_neg h2, if_neg h3,
      if_neg h4, if_neg h5, if_neg h6, if_neg h7, if_neg h8, if_neg h9,
      if_neg h10, if_neg h11, if_neg h12, if_neg h13, if_neg h14, if_neg h15,
      if_neg h16, if_neg h17, if_neg h18, if_neg h19]
  · simp [simpleOnMessage, hty]

/-- C3 amended-claim witness: instantiation at the concrete unknown type
`response.output_item.added`. -/
theorem unknown_event_forwarding_witness :
    handleMessage initialState unknownFrame =
      (initialState,
       [Emission.mk (some "response.output_item.added") (Payload.frame unknownFrame)])
    ∧ simpleOnMessage unknownFrame =
        [Emission.mk (some "response.output_item.added") (Payload.frame unknownFrame),
         Emission.mk (some "*") (Payload.frame unknownFrame)] :=
  unknown_event_forwarding initialState unknownFrame "response.output_item.added"
    rfl (by decide) (by decide)

/-- C4: while the socket field is null or its readyState is not OPEN,
`send` writes nothing to the transport and logs the "Cannot send" error,
and so does `appendInputAudio` (whose command goes through `send`). -/
theorem command_while_closed (s : ClientState) (buffer : List Nat)
    (h : s.ws ≠ some true) :
    send s = { wrote := false, errorLogged := true }
    ∧ (appendInputAudio s buffer).2 = { wrote := false, errorLogged := true } := by
  constructor <;> simp [send, appendInputAudio, h]

/-- C4 witness: `appendInputAudio` on a disconnected fresh client. -/
theorem command_while_closed_witness :
    send initialState = { wrote := false, errorLogged := true }
    ∧ (appendInputAudio initialState [1, 2, 3]).2 =
        { wrote := false, errorLogged := true } :=
  command_while_closed initialState [1, 2, 3] (by decide)

/-- C5: `disconnect()` clears any pending reconnection timer and leaves
the client disconnected, and the normal-code close (1000, "Client
disconnect") it performs schedules no reconnection — so after
`disconnect()` no reconnect attempt can fire. -/
theorem disconnect_cancels_reconnect (s : ClientState) :
    (disconnect s).reconnectTimer = none
    ∧ (disconnect s).isConnected = false
    ∧ (handleClose (disconnect s) 1000 "Client disconnect").2.2 = none := by
  refine ⟨rfl, rfl, ?_⟩
  simp only [handleClose]
  rw [if_neg (by decide), if_neg (fun hc => hc.1 rfl)]

/-- C6: processing `session.created` stores the upstream-assigned session
id, so `getSessionId` returns it afterwards; in particular the id
`sess_abc` is returned after the concrete frame of the claim. -/
theorem session_id_capture (s : ClientState) (id ec : Option String) :
    getSessionId
      (handleMessage s { type := some "session.created", sessionId := id, errorCode := ec }).1 = id
    ∧ getSessionId
        (handleMessage initialState
          { type := some "session.created", sessionId := some "sess_abc",
            errorCode := none }).1 = some "sess_abc" := by
  constructor
  · simp [handleMessage, getSessionId]
  · decide

/-- C8: a parsed frame whose `type` is absent or falsy (the empty string)
is dropped by `handleMessage`: no event is emitted on any channel and the
state — in particular the connected flag — is unchanged. -/
theorem untyped_frame_dropped (s : ClientState) (f : Frame)
    (h : f.type = none ∨ f.type = some "") :
    handleMessage s f = (s, []) := by
  rcases h with h | h <;> simp [handleMessage, h]

/-- C8 witness: a concrete frame with no `type` field on a fresh
client. -/
theorem untyped_frame_dropped_witness :
    handleMessage initialState { type := none, sessionId := none, errorCode := none } =
      (initialState, []) :=
  untyped_frame_dropped initialState
    { type := none, sessionId := none, errorCode := none } (Or.inl rfl)

/-- C9: after `disconnect()`, `getConnectionStatus` returns false and
`getSessionId` returns null, whatever the prior state was. -/
theorem disconnect_resets_state (s : ClientState) :
    getConnectionStatus (disconnect s) = false
    ∧ getSessionId (disconnect s) = none :=
  ⟨rfl, rfl⟩

/-- C10: one `off` removes exactly one registration (the invocation count
per emission drops by one); `off` for an unregistered handler or a
different event changes nothing; and handlers are invoked in registration
order (`on` appends, `emit` runs the list in order). -/
theorem off_removes_one (m : HandlerMap) (e : String) (h : Nat) :
    (emitCalls (offReg m e h) e).count h = (emitCalls m e).count h - 1
    ∧ (h ∉ m e → ∀ x, offReg m e h x = m x)
    ∧ (∀ x, x ≠ e → offReg m e h x = m x)
    ∧ (∀ g k, emitCalls (onReg (onReg m e g) e k) e = m e ++ [g, k]) := by
  refine ⟨?_, ?_, ?_, ?_⟩
  · simp [emitCalls, offReg, List.count_erase_self]
  · intro hnm x
    by_cases hx : x = e
    · subst hx
      simp [offReg, List.erase_of_not_mem hnm]
    · simp [offReg, hx]
  · intro x hx
    simp [offReg, hx]
  · intro g k
    simp [onReg, emitCalls]

/-- C10 witness: handler 1 registered twice under "a" is invoked once
after one `off`; `off` of the unregistered handler 7 and `off` under the
unregistered event "b" change nothing; two further registrations are
invoked in registration order. -/
theorem off_removes_one_witness :
    (emitCalls (offReg exampleMap "a" 1) "a").count 1 =
      (emitCalls exampleMap "a").count 1 - 1
    ∧ offReg exampleMap "a" 7 "a" = exampleMap "a"
    ∧ offReg exampleMap "a" 1 "b" = exampleMap "b"
    ∧ emitCalls (onReg (onReg exampleMap "a" 8) "a" 9) "a" = exampleMap "a" ++ [8, 9] :=
  ⟨(off_removes_one exampleMap "a" 1).1,
   (off_removes_one exampleMap "a" 7).2.1 (by decide) "a",
   (off_removes_one exampleMap "a" 1).2.2.1 "b" (by decide),
   (off_removes_one exampleMap "a" 0).2.2.2 8 9⟩

end CareerMVP
